import Mathlib

/-
Verification of the flight-physics and world-interaction core of the
magical-vibe-carpet game (src/src/game/systems/WorldSystem.js,
PlayerSystem.js, player/PlayerPhysics.js, player/PlayerSpells.js).

The JavaScript source is shallowly embedded over exact rationals.  Game
numbers are IEEE doubles in the source; all constants appearing in the
embedded fragments (worldSize 1000, hit radius 3, cooldowns 0.5/0.3/2,
lerp factor 0.3, gravity scale 0.4, inertia 0.95, ...) are exactly
representable, and every claim below concerns order/branching structure
rather than rounding, so the rational embedding is faithful to the
branch structure of the double-precision program.  Fallible operations
(JavaScript undefined-property accesses / TypeError, NaN-producing
out-of-range array reads) are embedded as Option, with none standing
for any non-finite or throwing outcome.
-/

namespace Carpet

/-- A THREE.Vector3 value: three rational coordinates. -/
structure Vec3 where
  x : ℚ
  y : ℚ
  z : ℚ
deriving DecidableEq

/-- Componentwise vector addition, as THREE.Vector3.add. -/
def Vec3.add (a b : Vec3) : Vec3 :=
  ⟨a.x + b.x, a.y + b.y, a.z + b.z⟩

/-- Scalar multiple, as THREE.Vector3.multiplyScalar. -/
def Vec3.scale (c : ℚ) (a : Vec3) : Vec3 :=
  ⟨c * a.x, c * a.y, c * a.z⟩

/-- Squared Euclidean distance between two vectors. -/
def distSq (a b : Vec3) : ℚ :=
  (a.x - b.x) ^ 2 + (a.y - b.y) ^ 2 + (a.z - b.z) ^ 2

/-- The JavaScript test a.distanceTo(b) < r.  Since distanceTo is the
nonnegative square root, the test holds exactly when r is positive and
the squared distance is below r squared; this avoids irrational square
roots in the rational embedding. -/
def distLt (a b : Vec3) (r : ℚ) : Bool :=
  decide (0 < r ∧ distSq a b < r ^ 2)

/-- JavaScript array read a[i] for an integer index: some value when the
index is in range, none (undefined) otherwise. -/
def jsIndex {α : Type} (l : List α) (i : ℤ) : Option α :=
  if h : 0 ≤ i ∧ i.toNat < l.length then some (l.get ⟨i.toNat, h.2⟩) else none

/-- JavaScript splice(i, 1): removes the element at index i when the
index is in range, otherwise leaves the array unchanged. -/
def spliceAt {α : Type} (l : List α) (i : ℕ) : List α :=
  l.take i ++ l.drop (i + 1)

/-
WorldSystem.createTerrainCollision (WorldSystem.js lines 163-187):
builds a (resolution+1) x (resolution+1) grid of sampled elevations,
resolution = 100 in the source.  The per-cell elevation is the
three-octave SimplexNoise combination times heightScale; SimplexNoise is
an external library (three.js examples), so the per-cell value is
abstracted as a function of the two loop indices.
-/

/-- The heightMap grid built by createTerrainCollision: rows indexed by
i, columns by j, each entry the noise-derived elevation for that cell. -/
def createTerrainCollision (resolution : ℕ) (noiseHeight : ℕ → ℕ → ℚ) :
    List (List ℚ) :=
  (List.range (resolution + 1)).map fun i =>
    (List.range (resolution + 1)).map fun j => noiseHeight i j

/-
WorldSystem.getTerrainHeight (WorldSystem.js lines 189-214), embedded
statement by statement.  In the source, heightMap[x1] with x1 out of
range yields undefined and the following [z1] access throws a
TypeError; a column index out of range yields undefined and the
arithmetic produces NaN.  Both non-finite outcomes are embedded as
none.  Math.floor is the integer floor, Math.ceil the integer ceiling,
and x2/z2 are clamped from above (only) with Math.min, exactly as in
the source — the floor indices x1/z1 carry no clamp at all.
-/

/-- Embedding of WorldSystem.getTerrainHeight: bilinear interpolation on
the cached heightMap, with the source's partial index clamping. -/
def getTerrainHeight (worldSize : ℚ) (heightMap : List (List ℚ))
    (x z : ℚ) : Option ℚ := do
  let row0 ← heightMap[0]?
  let halfSize := worldSize / 2
  let nx := ((x + halfSize) / worldSize) * ((heightMap.length : ℚ) - 1)
  let nz := ((z + halfSize) / worldSize) * ((row0.length : ℚ) - 1)
  let x1 : ℤ := ⌊nx⌋
  let x2 : ℤ := min ⌈nx⌉ ((heightMap.length : ℤ) - 1)
  let z1 : ℤ := ⌊nz⌋
  let z2 : ℤ := min ⌈nz⌉ ((row0.length : ℤ) - 1)
  let rowx1 ← jsIndex heightMap x1
  let rowx2 ← jsIndex heightMap x2
  let h11 ← jsIndex rowx1 z1
  let h21 ← jsIndex rowx2 z1
  let h12 ← jsIndex rowx1 z2
  let h22 ← jsIndex rowx2 z2
  let fx := nx - (x1 : ℚ)
  let fz := nz - (z1 : ℚ)
  let h1 := h11 * (1 - fx) + h21 * fx
  let h2 := h12 * (1 - fx) + h22 * fx
  return h1 * (1 - fz) + h2 * fz

/-- The WorldSystem state read or written by the embedded fragments:
configuration, seed, the cached height grid and the mana nodes. -/
structure ManaNode where
  pos : Vec3
  value : ℚ
  collected : Bool
  visible : Bool
deriving DecidableEq

structure WorldState where
  worldSize : ℚ
  heightScale : ℚ
  seed : ℚ
  heightMap : List (List ℚ)
  manaNodes : List ManaNode
deriving DecidableEq

/-- State-passing form of WorldSystem.getTerrainHeight.  The method body
(lines 189-214) only reads this.worldSize and this.heightMap and assigns
no field of this, so its state-passing translation pairs the sampled
value with the unchanged receiver state. -/
def getTerrainHeightS (w : WorldState) (x z : ℚ) : Option ℚ × WorldState :=
  (getTerrainHeight w.worldSize w.heightMap x z, w)

/-
WorldSystem.checkManaCollection (WorldSystem.js lines 301-322): a
forEach over manaNodes; every node that is not yet collected and whose
distance to the query position is below radius + 2 (2 is the node
radius) is marked collected, made invisible, and its position and value
pushed onto the result array, in iteration order.
-/

/-- The hit test of checkManaCollection: node uncollected and within
radius + 2 of the query position. -/
def collectHit (position : Vec3) (radius : ℚ) (n : ManaNode) : Bool :=
  !n.collected && distLt position n.pos (radius + 2)

/-- Embedding of WorldSystem.checkManaCollection: returns the list of
(position, value) pairs pushed by the forEach, together with the
mutated node list. -/
def checkManaCollection : List ManaNode → Vec3 → ℚ →
    List (Vec3 × ℚ) × List ManaNode
  | [], _, _ => ([], [])
  | n :: rest, position, radius =>
    let (res, rest') := checkManaCollection rest position radius
    if collectHit position radius n then
      ((n.pos, n.value) :: res, { n with collected := true, visible := false } :: rest')
    else
      (res, n :: rest')

/-
PlayerSystem actors.  The fields below are the ones read or written by
the embedded fragments (updateNetworkPlayer, the spell collision loop,
updateAltitude).
-/

structure Player where
  id : ℕ
  isLocal : Bool
  pos : Vec3
  rotY : ℚ
  mana : ℚ
  health : ℚ
  maxHealth : ℚ
deriving DecidableEq

/-
PlayerSystem.updateNetworkPlayer (PlayerSystem.js lines 150-172).  A
remote snapshot is an object whose fields may each be absent
(JavaScript undefined), embedded as Option.  Position is lerped (factor
0.3) only when x, y and z are all present; rotationY is lerped when
present; mana and health are copied when present.
-/

structure Snapshot where
  id : ℕ
  x : Option ℚ
  y : Option ℚ
  z : Option ℚ
  rotationY : Option ℚ
  mana : Option ℚ
  health : Option ℚ
deriving DecidableEq

/-- THREE.MathUtils.lerp(x, y, t) = (1 - t) * x + t * y. -/
def threeLerp (x y t : ℚ) : ℚ := (1 - t) * x + t * y

/-- THREE.Vector3.lerp(v, alpha): each component moves by
(target - current) * alpha. -/
def vecLerp (a b : Vec3) (t : ℚ) : Vec3 :=
  ⟨a.x + (b.x - a.x) * t, a.y + (b.y - a.y) * t, a.z + (b.z - a.z) * t⟩

/-- The body of updateNetworkPlayer applied to the player found for the
snapshot id (already known to be non-local). -/
def applySnapshot (p : Player) (d : Snapshot) : Player :=
  let p1 :=
    match d.x, d.y, d.z with
    | some ax, some ay, some az => { p with pos := vecLerp p.pos ⟨ax, ay, az⟩ (3/10) }
    | _, _, _ => p
  let p2 :=
    match d.rotationY with
    | some r => { p1 with rotY := threeLerp p1.rotY r (3/10) }
    | none => p1
  let p3 :=
    match d.mana with
    | some m => { p2 with mana := m }
    | none => p2
  match d.health with
  | some h => { p3 with health := h }
  | none => p3

/-- Embedding of PlayerSystem.updateNetworkPlayer: the player stored
under the snapshot id is updated when it exists and is not local (ids
are unique in the players map, so the map over the list touches at most
that one entry); every other player is untouched. -/
def updateNetworkPlayer (players : List Player) (d : Snapshot) : List Player :=
  players.map fun p => if p.id = d.id && !p.isLocal then applySnapshot p d else p

/-
PlayerSpells (player/PlayerSpells.js).  The spell table is the literal
from the constructor (lines 11-15); this.spellCooldown is one shared
field.  The caster record carries the fields of the local player that
castSpell reads or writes.  The direction (0,0,1).applyEuler(rotation)
is computed by the external three.js library; it enters the embedding
as the forward parameter, and the spawn offset (0,0,2).applyEuler =
2 * forward by linearity of the rotation.
-/

structure SpellType where
  name : String
  damage : ℚ
  speed : ℚ
  cooldown : ℚ
deriving DecidableEq

/-- The spellTypes array from the PlayerSpells constructor. -/
def spellTypes : List SpellType :=
  [⟨"Fireball", 20, 100, 1/2⟩, ⟨"Lightning", 15, 150, 3/10⟩, ⟨"Shield", 0, 0, 2⟩]

/-- spellTypes[i].  Every writer of currentSpell (createLocalPlayer,
both selectSpell methods) keeps the index in 0..2, so the slot is
embedded as Fin 3. -/
def spellTypeOf (i : Fin 3) : SpellType :=
  spellTypes.get ⟨i.val, by simp [spellTypes]⟩

/-- A live projectile (the userData of an active spell mesh). -/
structure Spell where
  pos : Vec3
  vel : Vec3
  life : ℚ
  damage : ℚ
  owner : ℕ
deriving DecidableEq

/-- The local player fields read or written by PlayerSpells. -/
structure Caster where
  id : ℕ
  pos : Vec3
  currentSpell : Fin 3
  shield : Option ℚ
deriving DecidableEq

/-- The PlayerSpells state: the single shared cooldown, the live
projectile array and the local player. -/
structure SpellsState where
  spellCooldown : ℚ
  activeSpells : List Spell
  localPlayer : Option Caster
deriving DecidableEq

/-- PlayerSpells.selectSpell (lines 25-37): sets currentSpell (the
index guard is subsumed by Fin 3). -/
def selectSpell (i : Fin 3) (s : SpellsState) : SpellsState :=
  match s.localPlayer with
  | none => s
  | some p => { s with localPlayer := some { p with currentSpell := i } }

/-- Embedding of PlayerSpells.castSpell (lines 39-88): rejected as a
plain return while the shared cooldown is positive; otherwise the
cooldown is set to the slot's cooldown, then either a 3-second shield
is attached (Shield slot, lines 90-113) or a projectile with lifetime 3
is appended to activeSpells. -/
def castSpell (forward : Vec3) (s : SpellsState) : SpellsState :=
  match s.localPlayer with
  | none => s
  | some player =>
    if 0 < s.spellCooldown then s
    else
      let spellType := spellTypeOf player.currentSpell
      let s1 := { s with spellCooldown := spellType.cooldown }
      if spellType.name = "Shield" then
        { s1 with localPlayer := some { player with shield := some 3 } }
      else
        let proj : Spell :=
          { pos := Vec3.add player.pos (Vec3.scale 2 forward),
            vel := Vec3.scale spellType.speed forward,
            life := 3, damage := spellType.damage, owner := player.id }
        { s1 with activeSpells := s1.activeSpells ++ [proj] }

/-- The cooldown decrement at the top of PlayerSpells.updateSpells
(lines 267-270). -/
def tickSpellCooldown (delta : ℚ) (s : SpellsState) : SpellsState :=
  if 0 < s.spellCooldown then { s with spellCooldown := s.spellCooldown - delta } else s

/-- The damage application of the actor-impact branch (lines 308-310):
health -= damage then clamped below by 0. -/
def applyDamage (health damage : ℚ) : ℚ := max 0 (health - damage)

/-
The projectile loop of PlayerSpells.updateSpells (lines 276-326): a
downward for over activeSpells indices.  Per index: the projectile
object is advanced (position, life), then the terrain/lifetime check
removes it (splice at i) and continues; otherwise a forEach over all
players applies, for every non-owner player within distance 3, damage
and another splice at i — the forEach has no break, so several hits in
the same pass each run the damage-and-splice block.
-/

/-- The players.forEach of the actor-impact check, iterated in order;
threads the activeSpells array because the loop body splices it. -/
def actorHitLoop (sp : Spell) (i : ℕ) :
    List Player → List Spell → List Player × List Spell
  | [], spells => ([], spells)
  | p :: rest, spells =>
    if p.id != sp.owner && distLt p.pos sp.pos 3 then
      let p' := { p with health := applyDamage p.health sp.damage }
      let (rest', spells'') := actorHitLoop sp i rest (spliceAt spells i)
      (p' :: rest', spells'')
    else
      let (rest', spells') := actorHitLoop sp i rest spells
      (p :: rest', spells')

/-- The projectile advance at the top of each loop iteration (lines
280-283): position += velocity * delta, life -= delta. -/
def advanceSpell (delta : ℚ) (sp : Spell) : Spell :=
  { sp with pos := Vec3.add sp.pos (Vec3.scale delta sp.vel), life := sp.life - delta }

/-- One iteration of the projectile loop at index i: advance the
projectile, then terrain/lifetime termination, else the actor-impact
forEach.  none embeds the TypeError raised when the terrain lookup
fails (or activeSpells[i] is undefined, which the loop never hits). -/
def projectileStep (worldSize : ℚ) (heightMap : List (List ℚ)) (delta : ℚ)
    (i : ℕ) (spells : List Spell) (players : List Player) :
    Option (List Spell × List Player) :=
  match spells[i]? with
  | none => none
  | some sp0 =>
    let sp := advanceSpell delta sp0
    let spells1 := spells.set i sp
    match getTerrainHeight worldSize heightMap sp.pos.x sp.pos.z with
    | none => none
    | some terrainY =>
      if sp.pos.y < terrainY ∨ sp.life ≤ 0 then
        some (spliceAt spells1 i, players)
      else
        let (players', spells') := actorHitLoop sp i players spells1
        some (spells', players')

/-- The downward index loop: the counter n+1 processes index n and
recurses; elements below the current index are never spliced, so this
visits exactly the indices of the source loop. -/
def updateSpellsLoop (worldSize : ℚ) (heightMap : List (List ℚ)) (delta : ℚ) :
    ℕ → List Spell → List Player → Option (List Spell × List Player)
  | 0, spells, players => some (spells, players)
  | n + 1, spells, players =>
    match projectileStep worldSize heightMap delta n spells players with
    | none => none
    | some (spells', players') =>
      updateSpellsLoop worldSize heightMap delta n spells' players'

/-- The whole projectile phase of updateSpells, beginning at index
activeSpells.length - 1. -/
def updateSpellsProjectiles (worldSize : ℚ) (heightMap : List (List ℚ))
    (delta : ℚ) (spells : List Spell) (players : List Player) :
    Option (List Spell × List Player) :=
  updateSpellsLoop worldSize heightMap delta spells.length spells players

/-
PlayerPhysics.updateAltitude (player/PlayerPhysics.js lines 103-145),
with the constructor constants minAltitude = 5, maxAltitude = 300,
altitudeDamping = 0.9.  The sampled terrain height enters as a
parameter (the method calls getTerrainHeight on the world system).
-/

def minAltitude : ℚ := 5

def maxAltitude : ℚ := 300

def altitudeDamping : ℚ := 9/10

/-- The per-actor state read and written by updateAltitude. -/
structure AltState where
  y : ℚ
  altitudeVelocity : ℚ
  velY : ℚ
deriving DecidableEq

/-- Embedding of PlayerPhysics.updateAltitude: altitude input, damping,
then the floor clamp (with bounce) and the ceiling clamp, in source
order. -/
def updateAltitude (terrainHeight delta : ℚ) (a : AltState) : AltState :=
  let y1 := a.y + a.altitudeVelocity * delta
  let av1 := a.altitudeVelocity * altitudeDamping
  let minHeightAboveTerrain := max minAltitude (terrainHeight + 5)
  let a2 : AltState :=
    if y1 < minHeightAboveTerrain then
      { y := minHeightAboveTerrain,
        velY := if a.velY < 0 then 0 else a.velY,
        altitudeVelocity := if av1 < -10 then -av1 * (3/10) else 0 }
    else { y := y1, velY := a.velY, altitudeVelocity := av1 }
  if maxAltitude < a2.y then
    { y := maxAltitude,
      velY := if 0 < a2.velY then 0 else a2.velY,
      altitudeVelocity := 0 }
  else a2

/-
The world-transition controller (PlayerSystem.js lines 210-293).  The
worldTransitionComplete closure exists from startWorldTransition until
the tick that runs it; callbackPending embeds its non-nullness and
firedCount counts its executions.  Its body draws a fresh seed
(Math.random, embedded as the newSeed parameter), rebuilds the height
grid from the noise, repopulates the mana nodes (randomness embedded as
newNodes) and recenters the local player.
-/

structure TransitionState where
  isTransitioning : Bool
  transitionAlpha : ℚ
  callbackPending : Bool
  seed : ℚ
  heightMap : List (List ℚ)
  manaNodes : List ManaNode
  playerPos : Vec3
  playerVel : Vec3
  firedCount : ℕ
deriving DecidableEq

/-- PlayerSystem.startWorldTransition (lines 257-293): guarded by
isTransitioning; sets the transition state and installs the callback
(the DOM overlay is cosmetic and omitted). -/
def startWorldTransition (s : TransitionState) : TransitionState :=
  if s.isTransitioning then s
  else { s with isTransitioning := true, transitionAlpha := 0, callbackPending := true }

/-- PlayerSystem.checkWorldBoundaries (lines 244-255): outside
worldSize/2 - 50 on either axis and not transitioning, start a
transition. -/
def checkWorldBoundaries (worldSize : ℚ) (s : TransitionState) : TransitionState :=
  if s.isTransitioning then s
  else
    let halfSize := worldSize / 2 - 50
    if halfSize < |s.playerPos.x| ∨ halfSize < |s.playerPos.z| then
      startWorldTransition s
    else s

/-- Embedding of PlayerSystem.updateTransition (lines 210-242): alpha
advances by delta * 0.5; once alpha reaches 2.0 the state leaves
Transitioning and the callback, when still installed, runs (regenerates
seed, grid and nodes, recenters the player) — below 2.0 only the
cosmetic overlay opacity changes. -/
def updateTransition (delta newSeed : ℚ) (noise : ℕ → ℕ → ℚ)
    (newNodes : List ManaNode) (s : TransitionState) : TransitionState :=
  let s1 := { s with transitionAlpha := s.transitionAlpha + delta * (1/2) }
  if 2 ≤ s1.transitionAlpha then
    let s2 := { s1 with isTransitioning := false, transitionAlpha := 0 }
    if s2.callbackPending then
      { s2 with seed := newSeed,
                heightMap := createTerrainCollision 100 noise,
                manaNodes := newNodes,
                playerPos := ⟨0, 50, 0⟩,
                playerVel := ⟨0, 0, 0⟩,
                callbackPending := false,
                firedCount := s2.firedCount + 1 }
    else s2
  else s1

/- Helper lemmas shared by the claim theorems. -/

theorem ctc_length (r : ℕ) (f : ℕ → ℕ → ℚ) :
    (createTerrainCollision r f).length = r + 1 := by
  simp [createTerrainCollision]

theorem ctc_get0 (r : ℕ) (f : ℕ → ℕ → ℚ) :
    (createTerrainCollision r f)[0]? = some ((List.range (r + 1)).map (f 0)) := by
  simp [createTerrainCollision, List.getElem?_map]

theorem jsIndex_neg {α : Type} (l : List α) (i : ℤ) (h : i < 0) : jsIndex l i = none := by
  simp only [jsIndex]
  rw [dif_neg]
  rintro ⟨h0, -⟩
  omega

theorem jsIndex_big {α : Type} (l : List α) (i : ℤ) (h : (l.length : ℤ) ≤ i) :
    jsIndex l i = none := by
  simp only [jsIndex]
  rw [dif_neg]
  rintro ⟨h0, h1⟩
  omega

/-- castSpell is a plain return whenever the shared cooldown is
positive (PlayerSpells.js line 41). -/
theorem castSpell_frozen (forward : Vec3) (s : SpellsState)
    (h : 0 < s.spellCooldown) : castSpell forward s = s := by
  unfold castSpell
  cases s.localPlayer <;> simp [h]

/-- Claim C1 (refuted, code bug): getTerrainHeight never clamps the
floor indices x1/z1 below nor the row index above.  On the standard
101 x 101 grid with worldSize 1000, sampling at x = -501 (just past the
west boundary) derives the row index -1, and sampling at x = 600
derives the row index 110; in both cases heightMap[x1] is undefined and
the source throws a TypeError instead of clamping — embedded as none. -/
theorem getTerrainHeight_out_of_bounds :
    getTerrainHeight 1000 (createTerrainCollision 100 (fun _ _ => 0)) (-501) 0 = none ∧
    getTerrainHeight 1000 (createTerrainCollision 100 (fun _ _ => 0)) 600 0 = none := by
  constructor
  · rw [getTerrainHeight, ctc_get0]
    simp only [Option.bind_eq_bind, Option.some_bind]
    rw [jsIndex_neg]
    · simp
    · rw [Int.floor_lt, ctc_length]
      push_cast
      norm_num
  · rw [getTerrainHeight, ctc_get0]
    simp only [Option.bind_eq_bind, Option.some_bind]
    rw [jsIndex_big]
    · simp
    · rw [ctc_length, Int.le_floor]
      push_cast
      norm_num

/-- Claim C7 (confirmed): getTerrainHeight is a pure, deterministic
function of the current grid: two calls on world states that agree on
worldSize and heightMap return identical values, and neither call
mutates its receiver state. -/
theorem getTerrainHeight_pure (w w' : WorldState) (x z : ℚ)
    (hsize : w.worldSize = w'.worldSize) (hmap : w.heightMap = w'.heightMap) :
    (getTerrainHeightS w x z).1 = (getTerrainHeightS w' x z).1 ∧
    (getTerrainHeightS w x z).2 = w ∧ (getTerrainHeightS w' x z).2 = w' := by
  refine ⟨?_, rfl, rfl⟩
  simp [getTerrainHeightS, hsize, hmap]

/-- Witness for C7: two concrete world states sharing the same grid but
with different seeds give the same sample at (5, 5), and both states
are returned unchanged. -/
theorem getTerrainHeight_pure_witness :
    (getTerrainHeightS ⟨1000, 60, 0, [[1, 2], [3, 4]], []⟩ 5 5).1 =
      (getTerrainHeightS ⟨1000, 60, 7, [[1, 2], [3, 4]], []⟩ 5 5).1 ∧
    (getTerrainHeightS ⟨1000, 60, 0, [[1, 2], [3, 4]], []⟩ 5 5).2 =
      ⟨1000, 60, 0, [[1, 2], [3, 4]], []⟩ ∧
    (getTerrainHeightS ⟨1000, 60, 7, [[1, 2], [3, 4]], []⟩ 5 5).2 =
      ⟨1000, 60, 7, [[1, 2], [3, 4]], []⟩ :=
  getTerrainHeight_pure _ _ 5 5 rfl rfl

theorem fireball_ne_shield : ("Fireball" = "Shield") = False := by simp

theorem spellTypeOf_cooldown_pos (i : Fin 3) : 0 < (spellTypeOf i).cooldown := by
  fin_cases i <;> norm_num [spellTypeOf, spellTypes]

/-- Claim C8 (confirmed): while the shared cooldown is positive,
castSpell is a no-op — no projectile is spawned, no shield attached,
and the whole spells state (cooldown included) is unchanged. -/
theorem castSpell_rejected_on_cooldown (forward : Vec3) (s : SpellsState)
    (h : 0 < s.spellCooldown) : castSpell forward s = s :=
  castSpell_frozen forward s h

/-- Witness for C8 (Scenario D): a Fireball cast (cooldown 0.5)
followed by a 0.1-second cooldown tick leaves 0.4 on the shared
cooldown; the second cast is a no-op, and exactly one projectile is
live. -/
theorem castSpell_rejected_on_cooldown_witness :
    0 < (tickSpellCooldown (1/10) (castSpell ⟨0, 0, 1⟩
        ⟨0, [], some ⟨1, ⟨0, 0, 0⟩, 0, none⟩⟩)).spellCooldown ∧
    castSpell ⟨0, 0, 1⟩ (tickSpellCooldown (1/10) (castSpell ⟨0, 0, 1⟩
        ⟨0, [], some ⟨1, ⟨0, 0, 0⟩, 0, none⟩⟩)) =
      tickSpellCooldown (1/10) (castSpell ⟨0, 0, 1⟩
        ⟨0, [], some ⟨1, ⟨0, 0, 0⟩, 0, none⟩⟩) ∧
    (tickSpellCooldown (1/10) (castSpell ⟨0, 0, 1⟩
        ⟨0, [], some ⟨1, ⟨0, 0, 0⟩, 0, none⟩⟩)).activeSpells.length = 1 := by
  have h : 0 < (tickSpellCooldown (1/10) (castSpell ⟨0, 0, 1⟩
      ⟨0, [], some ⟨1, ⟨0, 0, 0⟩, 0, none⟩⟩)).spellCooldown := by
    norm_num [castSpell, tickSpellCooldown, spellTypeOf, spellTypes, fireball_ne_shield]
  refine ⟨h, castSpell_rejected_on_cooldown _ _ h, ?_⟩
  norm_num [castSpell, tickSpellCooldown, spellTypeOf, spellTypes, fireball_ne_shield]

/-- Claim C10 (confirmed): the cooldown gate is one shared field, not
per spell type: a successful cast of slot i sets the single shared
cooldown to slot i's duration, and until that duration has elapsed a
cast of any slot j — the same or a different type — is rejected
unchanged. -/
theorem spellCooldown_shared_across_slots (s : SpellsState) (c : Caster)
    (i j : Fin 3) (t : ℚ) (f f' : Vec3)
    (hlp : s.localPlayer = some c) (h0 : s.spellCooldown ≤ 0)
    (ht : t < (spellTypeOf i).cooldown) :
    (castSpell f (selectSpell i s)).spellCooldown = (spellTypeOf i).cooldown ∧
    castSpell f' (selectSpell j (tickSpellCooldown t (castSpell f (selectSpell i s)))) =
      selectSpell j (tickSpellCooldown t (castSpell f (selectSpell i s))) := by
  have hsel : selectSpell i s = { s with localPlayer := some { c with currentSpell := i } } := by
    simp [selectSpell, hlp]
  have hnot :
      ¬ 0 < ({ s with localPlayer := some { c with currentSpell := i } } : SpellsState).spellCooldown :=
    not_lt.mpr h0
  have hcool : (castSpell f (selectSpell i s)).spellCooldown = (spellTypeOf i).cooldown := by
    rw [hsel]
    unfold castSpell
    simp only [hnot, if_false]
    by_cases hsh : (spellTypeOf i).name = "Shield" <;> simp [hsh]
  refine ⟨hcool, ?_⟩
  apply castSpell_frozen
  have h2 : (tickSpellCooldown t (castSpell f (selectSpell i s))).spellCooldown =
      (spellTypeOf i).cooldown - t := by
    unfold tickSpellCooldown
    rw [if_pos]
    · rw [hcool]
    · rw [hcool]
      exact spellTypeOf_cooldown_pos i
  have h3 : ∀ u : SpellsState, (selectSpell j u).spellCooldown = u.spellCooldown := by
    intro u
    unfold selectSpell
    cases u.localPlayer <;> rfl
  rw [h3, h2]
  linarith

/-- Witness for C10: from a zero-cooldown state, casting Fireball
(slot 0, cooldown 0.5) and waiting only 0.1 blocks a subsequent
Lightning cast (slot 1) — the different slot is rejected unchanged. -/
theorem spellCooldown_shared_across_slots_witness :
    (castSpell ⟨0, 0, 1⟩ (selectSpell 0 ⟨0, [], some ⟨1, ⟨0, 0, 0⟩, 0, none⟩⟩)).spellCooldown =
      (spellTypeOf 0).cooldown ∧
    castSpell ⟨1, 0, 0⟩ (selectSpell 1 (tickSpellCooldown (1/10)
        (castSpell ⟨0, 0, 1⟩ (selectSpell 0 ⟨0, [], some ⟨1, ⟨0, 0, 0⟩, 0, none⟩⟩)))) =
      selectSpell 1 (tickSpellCooldown (1/10)
        (castSpell ⟨0, 0, 1⟩ (selectSpell 0 ⟨0, [], some ⟨1, ⟨0, 0, 0⟩, 0, none⟩⟩))) :=
  spellCooldown_shared_across_slots ⟨0, [], some ⟨1, ⟨0, 0, 0⟩, 0, none⟩⟩
    ⟨1, ⟨0, 0, 0⟩, 0, none⟩ 0 1 (1/10) ⟨0, 0, 1⟩ ⟨1, 0, 0⟩ rfl le_rfl
    (by norm_num [spellTypeOf, spellTypes])

theorem jsIndex_zero {α : Type} (a : α) (l : List α) : jsIndex (a :: l) 0 = some a := by
  simp [jsIndex]

/-- On a degenerate one-cell grid every sample is that cell: the index
arithmetic collapses to zero because the grid extent is 1 - 1 = 0. -/
theorem getTerrainHeight_single (worldSize x z v : ℚ) :
    getTerrainHeight worldSize [[v]] x z = some v := by
  rw [getTerrainHeight]
  simp only [List.getElem?_cons_zero, Option.some_bind, List.length_cons, List.length_nil,
    Nat.cast_one, sub_self, mul_zero, Int.floor_zero, Int.ceil_zero,
    Int.cast_zero, zero_min, jsIndex_zero, min_self]
  norm_num [jsIndex_zero]

/-- Claim C5 (confirmed): within one loop iteration the terrain-impact
check precedes the actor-impact check: when the advanced projectile is
below the terrain height at its (x, z), the iteration removes the
projectile and returns the players untouched — no damage is applied
even when actors sit within the hit radius. -/
theorem projectileStep_terrain_precedes_actor (worldSize : ℚ)
    (heightMap : List (List ℚ)) (delta : ℚ) (i : ℕ) (spells : List Spell)
    (players : List Player) (sp0 : Spell) (terrainY : ℚ)
    (hget : spells[i]? = some sp0)
    (hty : getTerrainHeight worldSize heightMap (advanceSpell delta sp0).pos.x
        (advanceSpell delta sp0).pos.z = some terrainY)
    (hbelow : (advanceSpell delta sp0).pos.y < terrainY) :
    projectileStep worldSize heightMap delta i spells players =
      some (spliceAt (spells.set i (advanceSpell delta sp0)) i, players) := by
  simp [projectileStep, hget, hty, hbelow]

/-- Witness for C5: a projectile at height 10 over 50-high terrain with
a non-owner actor at distance 0 (inside hit radius 3): the step removes
the projectile by terrain impact and the actor keeps health 100. -/
theorem projectileStep_terrain_precedes_actor_witness :
    distLt (⟨0, 10, 0⟩ : Vec3) (advanceSpell (1/10) ⟨⟨0, 10, 0⟩, ⟨0, 0, 0⟩, 3, 20, 1⟩).pos 3 = true ∧
    projectileStep 1000 [[50]] (1/10) 0
        [⟨⟨0, 10, 0⟩, ⟨0, 0, 0⟩, 3, 20, 1⟩] [⟨2, false, ⟨0, 10, 0⟩, 0, 0, 100, 100⟩] =
      some ([], [⟨2, false, ⟨0, 10, 0⟩, 0, 0, 100, 100⟩]) := by
  have hbelow : (advanceSpell (1/10) (⟨⟨0, 10, 0⟩, ⟨0, 0, 0⟩, 3, 20, 1⟩ : Spell)).pos.y < 50 := by
    norm_num [advanceSpell, Vec3.add, Vec3.scale]
  have h := projectileStep_terrain_precedes_actor 1000 [[50]] (1/10) 0
    [⟨⟨0, 10, 0⟩, ⟨0, 0, 0⟩, 3, 20, 1⟩] [⟨2, false, ⟨0, 10, 0⟩, 0, 0, 100, 100⟩]
    ⟨⟨0, 10, 0⟩, ⟨0, 0, 0⟩, 3, 20, 1⟩ 50 rfl
    (getTerrainHeight_single 1000 _ _ 50) hbelow
  constructor
  · simp only [distLt, distSq, advanceSpell, Vec3.add, Vec3.scale, decide_eq_true_eq]
    norm_num
  · rw [h]
    simp [spliceAt]

/-- Claim C6 (confirmed): checkCollection returns exactly the
uncollected nodes within radius + nodeRadius of the position (with
their position and value, in order), marks exactly those nodes
collected, and a node collected by one call can never satisfy the hit
test of any later call — no node is returned twice. -/
theorem checkManaCollection_spec (nodes : List ManaNode) (position : Vec3)
    (radius : ℚ) (p2 : Vec3) (r2 : ℚ) :
    (checkManaCollection nodes position radius).1 =
      (nodes.filter (collectHit position radius)).map (fun n => (n.pos, n.value)) ∧
    (checkManaCollection nodes position radius).2 =
      nodes.map (fun n => if collectHit position radius n then
        { n with collected := true, visible := false } else n) ∧
    (∀ n : ManaNode, collectHit position radius n = true →
      collectHit p2 r2 { n with collected := true, visible := false } = false) := by
  refine ⟨?_, ?_, ?_⟩
  · induction nodes with
    | nil => simp [checkManaCollection]
    | cons n rest ih =>
      by_cases h : collectHit position radius n <;>
        simp [checkManaCollection, h, ih]
  · induction nodes with
    | nil => simp [checkManaCollection]
    | cons n rest ih =>
      by_cases h : collectHit position radius n <;>
        simp [checkManaCollection, h, ih]
  · intro n _
    simp [collectHit]

/-- Witness for C6 (Scenario C): one node at (10, 12, 10) worth 15;
a call at (10, 10, 10) with radius 5 collects and returns it once, and
the repeated identical call returns nothing. -/
theorem checkManaCollection_spec_witness :
    collectHit ⟨10, 10, 10⟩ 5 ⟨⟨10, 12, 10⟩, 15, false, true⟩ = true ∧
    collectHit ⟨10, 10, 10⟩ 5
      ({ (⟨⟨10, 12, 10⟩, 15, false, true⟩ : ManaNode) with
          collected := true, visible := false }) = false ∧
    (checkManaCollection [⟨⟨10, 12, 10⟩, 15, false, true⟩] ⟨10, 10, 10⟩ 5).1 =
      [(⟨10, 12, 10⟩, 15)] ∧
    (checkManaCollection
        (checkManaCollection [⟨⟨10, 12, 10⟩, 15, false, true⟩] ⟨10, 10, 10⟩ 5).2
        ⟨10, 10, 10⟩ 5).1 = [] := by
  have hhit : collectHit ⟨10, 10, 10⟩ 5 ⟨⟨10, 12, 10⟩, 15, false, true⟩ = true := by
    simp only [collectHit, distLt, distSq, Bool.not_false, Bool.true_and, decide_eq_true_eq]
    norm_num
  have h := checkManaCollection_spec [⟨⟨10, 12, 10⟩, 15, false, true⟩] ⟨10, 10, 10⟩ 5
    ⟨10, 10, 10⟩ 5
  refine ⟨hhit, h.2.2 _ hhit, ?_, ?_⟩
  · rw [h.1]
    simp [hhit]
  · rw [h.2.1]
    simp only [List.map_cons, List.map_nil, hhit, if_true]
    have h2 := checkManaCollection_spec
      [({ (⟨⟨10, 12, 10⟩, 15, false, true⟩ : ManaNode) with
          collected := true, visible := false })] ⟨10, 10, 10⟩ 5 ⟨10, 10, 10⟩ 5
    rw [h2.1]
    simp [collectHit]

/-- Claim C9 counterexample: a snapshot carrying x = 100 but no y and
no z leaves the actor's position entirely unchanged — the present field
x is dropped, not applied by smoothed interpolation (which would move
position.x to 30). -/
theorem updateNetworkPlayer_drops_partial_position :
    updateNetworkPlayer [⟨7, false, ⟨0, 0, 0⟩, 0, 0, 100, 100⟩]
        ⟨7, some 100, none, none, none, none, none⟩ =
      [⟨7, false, ⟨0, 0, 0⟩, 0, 0, 100, 100⟩] ∧
    (⟨7, some 100, none, none, none, none, none⟩ : Snapshot).x = some 100 ∧
    vecLerp ⟨0, 0, 0⟩ ⟨100, 0, 0⟩ (3/10) ≠ (⟨0, 0, 0⟩ : Vec3) := by
  refine ⟨?_, rfl, ?_⟩
  · simp [updateNetworkPlayer, applySnapshot]
  · simp only [vecLerp, ne_eq, Vec3.mk.injEq, not_and]
    norm_num

/-- Claim C9 as amended (proved): every missing snapshot field leaves
the corresponding attribute unchanged and the update is total; present
rotationY is lerped and present mana and health are copied; but the
three position fields are applied — by 0.3-lerp — only when x, y and z
are all present: if any of the three is missing the whole position is
left unchanged, dropping the present ones. -/
theorem applySnapshot_field_semantics (p : Player) (d : Snapshot) :
    (d.health = none → (applySnapshot p d).health = p.health) ∧
    (∀ h, d.health = some h → (applySnapshot p d).health = h) ∧
    (d.mana = none → (applySnapshot p d).mana = p.mana) ∧
    (∀ m, d.mana = some m → (applySnapshot p d).mana = m) ∧
    (d.rotationY = none → (applySnapshot p d).rotY = p.rotY) ∧
    (∀ r, d.rotationY = some r →
      (applySnapshot p d).rotY = threeLerp p.rotY r (3/10)) ∧
    ((d.x = none ∨ d.y = none ∨ d.z = none) → (applySnapshot p d).pos = p.pos) ∧
    (∀ ax ay az, d.x = some ax → d.y = some ay → d.z = some az →
      (applySnapshot p d).pos = vecLerp p.pos ⟨ax, ay, az⟩ (3/10)) := by
  obtain ⟨did, dx, dy, dz, dr, dm, dh⟩ := d
  cases dx <;> cases dy <;> cases dz <;> cases dr <;> cases dm <;> cases dh <;>
    simp [applySnapshot]

/-- Witness for C9: a full snapshot (all fields present) applies every
field — position and rotation by 0.3-lerp, mana and health copied. -/
theorem applySnapshot_field_semantics_witness :
    (applySnapshot ⟨7, false, ⟨0, 0, 0⟩, 0, 0, 100, 100⟩
        ⟨7, some 10, some 20, some 30, some 1, some 5, some 90⟩).pos =
      vecLerp ⟨0, 0, 0⟩ ⟨10, 20, 30⟩ (3/10) ∧
    (applySnapshot ⟨7, false, ⟨0, 0, 0⟩, 0, 0, 100, 100⟩
        ⟨7, some 10, some 20, some 30, some 1, some 5, some 90⟩).rotY =
      threeLerp 0 1 (3/10) ∧
    (applySnapshot ⟨7, false, ⟨0, 0, 0⟩, 0, 0, 100, 100⟩
        ⟨7, some 10, some 20, some 30, some 1, some 5, some 90⟩).health = 90 := by
  have h := applySnapshot_field_semantics ⟨7, false, ⟨0, 0, 0⟩, 0, 0, 100, 100⟩
    ⟨7, some 10, some 20, some 30, some 1, some 5, some 90⟩
  exact ⟨h.2.2.2.2.2.2.2 10 20 30 rfl rfl rfl, h.2.2.2.2.2.1 1 rfl, h.2.1 90 rfl⟩

/-- Claim C4 counterexample: applying a remote snapshot with health 200
to an actor with maxHealth 100 stores health 200 — the invariant
health <= maxHealth does not hold on the snapshot-application path. -/
theorem updateNetworkPlayer_health_unbounded :
    (updateNetworkPlayer [⟨3, false, ⟨0, 0, 0⟩, 0, 0, 100, 100⟩]
        ⟨3, none, none, none, none, none, some 200⟩).map Player.health = [200] ∧
    (updateNetworkPlayer [⟨3, false, ⟨0, 0, 0⟩, 0, 0, 100, 100⟩]
        ⟨3, none, none, none, none, none, some 200⟩).map Player.maxHealth = [100] ∧
    ((100 : ℚ) < 200) := by
  refine ⟨?_, ?_, by norm_num⟩ <;> simp [updateNetworkPlayer, applySnapshot]

/-- Claim C4 as amended (proved): the altitude bound holds on the local
physics path — after updateAltitude the local actor's y lies in
[max(minAltitude, terrainHeight + 5), maxAltitude] whenever the terrain
floor fits under the ceiling — and the health bound holds on the
projectile-damage path, where applyDamage keeps health in
[0, maxHealth]; the bounds are not enforced where remote snapshots are
applied (updateNetworkPlayer copies health and lerps position
unclamped). -/
theorem actor_bounds_on_local_paths (terrainHeight delta : ℚ) (a : AltState)
    (hth : terrainHeight + 5 ≤ maxAltitude) :
    (max minAltitude (terrainHeight + 5) ≤ (updateAltitude terrainHeight delta a).y ∧
      (updateAltitude terrainHeight delta a).y ≤ maxAltitude) ∧
    (∀ h d maxH : ℚ, 0 ≤ h → h ≤ maxH → 0 ≤ d →
      0 ≤ applyDamage h d ∧ applyDamage h d ≤ maxH) := by
  constructor
  · have hM : max minAltitude (terrainHeight + 5) ≤ maxAltitude := by
      apply max_le
      · norm_num [minAltitude, maxAltitude]
      · exact hth
    simp only [updateAltitude]
    split_ifs with h1 h2 <;>
      dsimp only at * <;>
      simp only [not_lt] at * <;>
      constructor <;>
      linarith [hM]
  · intro h d maxH h0 hmax hd
    constructor
    · exact le_max_left 0 (h - d)
    · apply max_le
      · linarith
      · linarith

/-- Witness for C4 (amended): terrain height 20 (floor 25 fits under
the 300 ceiling), an actor dropping from y = 10, and a 20-damage hit on
100 health: both bounds hold. -/
theorem actor_bounds_on_local_paths_witness :
    ((20 : ℚ) + 5 ≤ maxAltitude) ∧
    (max minAltitude ((20 : ℚ) + 5) ≤ (updateAltitude 20 (1/10) ⟨10, -5, 0⟩).y ∧
      (updateAltitude 20 (1/10) ⟨10, -5, 0⟩).y ≤ maxAltitude) ∧
    (0 ≤ applyDamage 100 20 ∧ applyDamage 100 20 ≤ 100) := by
  have hth : (20 : ℚ) + 5 ≤ maxAltitude := by norm_num [maxAltitude]
  have h := actor_bounds_on_local_paths 20 (1/10) ⟨10, -5, 0⟩ hth
  exact ⟨hth, h.1, h.2 100 20 100 (by norm_num) (by norm_num) (by norm_num)⟩

/-- Claim C3 (refuted, code bug): starting a transition and advancing
by dt = 2.4 brings alpha to 1.2 — past the logical midpoint 1 — yet the
regeneration callback has not fired, the player is not recentered and
the state is still Transitioning; only a further advance taking alpha
to 2 runs the callback (exactly once, with seed redraw and recenter),
contradicting the claimed firing at alpha == 1.  The source's own
comment installs the closure "for when transition reaches midpoint",
but updateTransition only runs it at alpha >= 2.0. -/
theorem updateTransition_does_not_fire_at_midpoint :
    (1 ≤ (updateTransition (12/5) 999 (fun _ _ => 0) []
        (startWorldTransition ⟨false, 0, false, 0, [[0]], [], ⟨480, 50, 0⟩, ⟨1, 0, 0⟩, 0⟩)).transitionAlpha) ∧
    (updateTransition (12/5) 999 (fun _ _ => 0) []
        (startWorldTransition ⟨false, 0, false, 0, [[0]], [], ⟨480, 50, 0⟩, ⟨1, 0, 0⟩, 0⟩)).firedCount = 0 ∧
    (updateTransition (12/5) 999 (fun _ _ => 0) []
        (startWorldTransition ⟨false, 0, false, 0, [[0]], [], ⟨480, 50, 0⟩, ⟨1, 0, 0⟩, 0⟩)).playerPos = ⟨480, 50, 0⟩ ∧
    (updateTransition (12/5) 999 (fun _ _ => 0) []
        (startWorldTransition ⟨false, 0, false, 0, [[0]], [], ⟨480, 50, 0⟩, ⟨1, 0, 0⟩, 0⟩)).isTransitioning = true ∧
    (updateTransition (12/5) 999 (fun _ _ => 0) []
        (updateTransition (12/5) 999 (fun _ _ => 0) []
          (startWorldTransition ⟨false, 0, false, 0, [[0]], [], ⟨480, 50, 0⟩, ⟨1, 0, 0⟩, 0⟩))).firedCount = 1 ∧
    (updateTransition (12/5) 999 (fun _ _ => 0) []
        (updateTransition (12/5) 999 (fun _ _ => 0) []
          (startWorldTransition ⟨false, 0, false, 0, [[0]], [], ⟨480, 50, 0⟩, ⟨1, 0, 0⟩, 0⟩))).playerPos = ⟨0, 50, 0⟩ ∧
    (updateTransition (12/5) 999 (fun _ _ => 0) []
        (updateTransition (12/5) 999 (fun _ _ => 0) []
          (startWorldTransition ⟨false, 0, false, 0, [[0]], [], ⟨480, 50, 0⟩, ⟨1, 0, 0⟩, 0⟩))).seed = 999 ∧
    (updateTransition (12/5) 999 (fun _ _ => 0) []
        (updateTransition (12/5) 999 (fun _ _ => 0) []
          (startWorldTransition ⟨false, 0, false, 0, [[0]], [], ⟨480, 50, 0⟩, ⟨1, 0, 0⟩, 0⟩))).isTransitioning = false := by
  have hstart : startWorldTransition ⟨false, 0, false, 0, [[0]], [], ⟨480, 50, 0⟩, ⟨1, 0, 0⟩, 0⟩ =
      ⟨true, 0, true, 0, [[0]], [], ⟨480, 50, 0⟩, ⟨1, 0, 0⟩, 0⟩ := by
    simp [startWorldTransition]
  have h1 : updateTransition (12/5) 999 (fun _ _ => 0) []
      (⟨true, 0, true, 0, [[0]], [], ⟨480, 50, 0⟩, ⟨1, 0, 0⟩, 0⟩ : TransitionState) =
      ⟨true, 6/5, true, 0, [[0]], [], ⟨480, 50, 0⟩, ⟨1, 0, 0⟩, 0⟩ := by
    norm_num [updateTransition]
  have h2 : updateTransition (12/5) 999 (fun _ _ => 0) []
      (⟨true, 6/5, true, 0, [[0]], [], ⟨480, 50, 0⟩, ⟨1, 0, 0⟩, 0⟩ : TransitionState) =
      ⟨false, 0, false, 999, createTerrainCollision 100 (fun _ _ => 0), [],
        ⟨0, 50, 0⟩, ⟨0, 0, 0⟩, 1⟩ := by
    norm_num [updateTransition]
  rw [hstart, h1, h2]
  norm_num

theorem updateSpellsLoop_zero (ws : ℚ) (hm : List (List ℚ)) (delta : ℚ)
    (spells : List Spell) (players : List Player) :
    updateSpellsLoop ws hm delta 0 spells players = some (spells, players) := rfl

theorem updateSpellsLoop_succ (ws : ℚ) (hm : List (List ℚ)) (delta : ℚ) (n : ℕ)
    (spells : List Spell) (players : List Player) :
    updateSpellsLoop ws hm delta (n + 1) spells players =
      match projectileStep ws hm delta n spells players with
      | none => none
      | some (spells', players') => updateSpellsLoop ws hm delta n spells' players' := rfl

/-- The index-1 pass of the C2 scenario: the far projectile meets no
termination condition and survives its own pass unchanged (except the
advance), touching no player. -/
theorem projectileStep_far_survives : projectileStep 1000 [[0]] (1/10) 1
    [⟨⟨0, 50, 0⟩, ⟨0, 0, 0⟩, 3, 20, 9⟩, ⟨⟨200, 50, 200⟩, ⟨0, 0, 0⟩, 3, 20, 9⟩]
    [⟨5, false, ⟨0, 50, 0⟩, 0, 0, 100, 100⟩, ⟨7, false, ⟨1, 50, 0⟩, 0, 0, 100, 100⟩] =
    some ([⟨⟨0, 50, 0⟩, ⟨0, 0, 0⟩, 3, 20, 9⟩, ⟨⟨200, 50, 200⟩, ⟨0, 0, 0⟩, 29/10, 20, 9⟩],
      [⟨5, false, ⟨0, 50, 0⟩, 0, 0, 100, 100⟩, ⟨7, false, ⟨1, 50, 0⟩, 0, 0, 100, 100⟩]) := by
  norm_num [projectileStep, advanceSpell, Vec3.add, Vec3.scale, getTerrainHeight_single,
    actorHitLoop, distLt, distSq, applyDamage, spliceAt]

/-- The index-0 pass of the C2 scenario: one projectile with two
non-owner actors inside the hit radius — the forEach damages both
actors and splices the array twice, the second splice deleting the
surviving far projectile. -/
theorem projectileStep_double_hit : projectileStep 1000 [[0]] (1/10) 0
    [⟨⟨0, 50, 0⟩, ⟨0, 0, 0⟩, 3, 20, 9⟩, ⟨⟨200, 50, 200⟩, ⟨0, 0, 0⟩, 29/10, 20, 9⟩]
    [⟨5, false, ⟨0, 50, 0⟩, 0, 0, 100, 100⟩, ⟨7, false, ⟨1, 50, 0⟩, 0, 0, 100, 100⟩] =
    some ([],
      [⟨5, false, ⟨0, 50, 0⟩, 0, 0, 80, 100⟩, ⟨7, false, ⟨1, 50, 0⟩, 0, 0, 80, 100⟩]) := by
  norm_num [projectileStep, advanceSpell, Vec3.add, Vec3.scale, getTerrainHeight_single,
    actorHitLoop, distLt, distSq, applyDamage, spliceAt]

/-- Claim C2 (refuted, code bug): the actor-impact forEach has no
break, so a projectile whose hit radius contains two non-owner actors
performs two termination actions in one tick: both actors take the full
damage (100 to 80 each from the single 20-damage projectile at index
0), and splice(0, 1) runs twice — the second call deleting the far
projectile at index 1, which had just survived its own pass with no
termination condition true (projectileStep_far_survives).  The final
live set is therefore empty and both actors are damaged, where
at-most-once termination would leave the far projectile live and damage
exactly one actor. -/
theorem updateSpells_double_termination :
    updateSpellsProjectiles 1000 [[0]] (1/10)
      [⟨⟨0, 50, 0⟩, ⟨0, 0, 0⟩, 3, 20, 9⟩, ⟨⟨200, 50, 200⟩, ⟨0, 0, 0⟩, 3, 20, 9⟩]
      [⟨5, false, ⟨0, 50, 0⟩, 0, 0, 100, 100⟩, ⟨7, false, ⟨1, 50, 0⟩, 0, 0, 100, 100⟩] =
    some ([],
      [⟨5, false, ⟨0, 50, 0⟩, 0, 0, 80, 100⟩, ⟨7, false, ⟨1, 50, 0⟩, 0, 0, 80, 100⟩]) := by
  rw [updateSpellsProjectiles]
  simp only [List.length_cons, List.length_nil, Nat.zero_add, updateSpellsLoop_succ,
    updateSpellsLoop_zero, projectileStep_far_survives, projectileStep_double_hit]

end Carpet
